import Mathlib

/-!
Verification of the websocket connector
(`src/arroyo-connectors/src/websocket.rs`) against its specification.

The Rust code is shallowly embedded: the asynchronous connectivity-test
session (`WebsocketConnector::test`) becomes a pure function from an
environment — the outcomes of the connect attempt, the subscription send,
the race between the inbound receive and the 30-second timer, and the
per-send state of the event sink channel — to the list of events delivered
through the sink together with how the spawned task finished.  The
configuration compiler (`from_config` / `from_options`) becomes a pure
function into `Except`.
-/

namespace Websocket

/-- One event of a test session's output stream.  Modelled from the spec:
`TestSourceMessage` lives in the external `arroyo_rpc` crate (not under
`src/`); the spec gives its shape as `{error: bool, done: bool, message:
string}`, matching its construction in `websocket.rs`. -/
structure TestSourceMessage where
  error : Bool
  done : Bool
  message : String
deriving DecidableEq, Repr

/-- An inbound websocket frame, after `tungstenite::Message`: the session's
`match` treats every `Some(Ok(_))` frame alike, so only the constructors'
existence matters. -/
inductive Frame
  | text (s : String)
  | binary
  | ping
  | pong
  | close
deriving DecidableEq, Repr

/-- The value produced by `rx.next()` in the session: a frame, a transport
error (its `{:?}` rendering), or `None` — the stream ended. -/
inductive RxResult
  | frame (f : Frame)
  | err (e : String)
  | disconnected
deriving DecidableEq, Repr

/-- Which branch of the `tokio::select!` completes first: the inbound
receive, or the 30-second `tokio::time::sleep`. -/
inductive WaitOutcome
  | received (r : RxResult)
  | timeout
deriving DecidableEq, Repr

/-- The environment a single run of the test session executes against:
the result of `connect_async`, the result of sending the subscription
message (errors carry their `{:?}` rendering), the outcome of the
receive/timeout race, and whether the `i`-th send into the mpsc event
sink succeeds (`false` once the observer has dropped the receiver). -/
structure TestEnv where
  connectResult : Except String Unit
  subSendResult : Except String Unit
  waitOutcome : WaitOutcome
  sinkOpen : Nat → Bool

/-- How the spawned session task finished: normally, or by the panic that
`tx.send(..).await.unwrap()` raises when the sink channel is closed.
Either way the events delivered before that point are recorded. -/
inductive SessionResult
  | completed (events : List TestSourceMessage)
  | panicked (events : List TestSourceMessage)
deriving DecidableEq, Repr

/-- The events a run delivered into the sink, however it finished. -/
def SessionResult.events : SessionResult → List TestSourceMessage
  | .completed es => es
  | .panicked es => es

/-- The `send` closure of `WebsocketConnector::test`: attempt to push one
`TestSourceMessage` into the sink.  The send index is the number of events
delivered so far; if the channel is closed at that index the send fails
(`none`), which the caller turns into the `unwrap` panic. -/
def sendStep (env : TestEnv) (error done : Bool) (message : String)
    (acc : List TestSourceMessage) : Option (List TestSourceMessage) :=
  if env.sinkOpen acc.length then some (acc ++ [⟨error, done, message⟩]) else none

/-- The body of the `tokio::select!` in `WebsocketConnector::test` and the
final success event after it: a received frame emits the received-message
event and then the validated event; a received error, a disconnect, or the
timeout each emit their terminal event and return. -/
def waitPhase (env : TestEnv) (acc : List TestSourceMessage) : SessionResult :=
  match env.waitOutcome with
  | .received (.frame _) =>
    match sendStep env false false "Received message from websocket" acc with
    | none => .panicked acc
    | some acc1 =>
      match sendStep env false true "Successfully validated websocket connection" acc1 with
      | none => .panicked acc1
      | some acc2 => .completed acc2
  | .received (.err e) =>
    match sendStep env true true ("Received error from websocket: " ++ e) acc with
    | none => .panicked acc
    | some acc1 => .completed acc1
  | .received .disconnected =>
    match sendStep env true true "Websocket disconnected before sending message" acc with
    | none => .panicked acc
    | some acc1 => .completed acc1
  | .timeout =>
    match sendStep env true true "Did not receive any messages after 30 seconds" acc with
    | none => .panicked acc
    | some acc1 => .completed acc1

/-- The `SubscriptionMessage` newtype generated from the table schema for
the optional `subscription_message` field; it wraps a string. -/
structure SubscriptionMessage where
  val : String
deriving DecidableEq, Repr

/-- The table configuration `WebsocketTable` generated from
`connector-schemas/websocket/table.json`: a required `endpoint` string and
an optional `subscription_message`. -/
structure WebsocketTable where
  endpoint : String
  subscription_message : Option SubscriptionMessage
deriving DecidableEq, Repr

/-- The `if let Some(msg) = table.subscription_message` block of
`WebsocketConnector::test`: with no payload configured the session goes
straight to the wait; with one, a successful send emits the non-terminal
confirmation event and continues, a failed send emits a terminal error
event and returns. -/
def subscribePhase (table : WebsocketTable) (env : TestEnv)
    (acc : List TestSourceMessage) : SessionResult :=
  match table.subscription_message with
  | none => waitPhase env acc
  | some _ =>
    match env.subSendResult with
    | .ok _ =>
      match sendStep env false false "Sent subscription message" acc with
      | none => .panicked acc
      | some acc1 => waitPhase env acc1
    | .error e =>
      match sendStep env true true ("Failed to send subscription message: " ++ e) acc with
      | none => .panicked acc
      | some acc1 => .completed acc1

/-- The spawned task of `WebsocketConnector::test`: a failed connect emits
one terminal error event and returns; a successful connect emits the
non-terminal connected event and proceeds to the subscription step and the
wait. -/
def test (table : WebsocketTable) (env : TestEnv) : SessionResult :=
  match env.connectResult with
  | .error e =>
    match sendStep env true true ("Failed to connect to websocket server: " ++ e) [] with
    | none => .panicked []
    | some acc => .completed acc
  | .ok _ =>
    match sendStep env false false "Successfully connected to websocket server" [] with
    | none => .panicked []
    | some acc => subscribePhase table env acc

/-- The sink channel stays open for the whole run: every send succeeds. -/
def sinkAlwaysOpen (env : TestEnv) : Prop := ∀ i, env.sinkOpen i = true

/-- The events the wait phase appends when every send succeeds. -/
def waitEvents : WaitOutcome → List TestSourceMessage
  | .received (.frame _) =>
    [⟨false, false, "Received message from websocket"⟩,
     ⟨false, true, "Successfully validated websocket connection"⟩]
  | .received (.err e) => [⟨true, true, "Received error from websocket: " ++ e⟩]
  | .received .disconnected =>
    [⟨true, true, "Websocket disconnected before sending message"⟩]
  | .timeout => [⟨true, true, "Did not receive any messages after 30 seconds"⟩]

/-! ## Configuration compilation -/

/-- A model of `serde_json::Value`, rich enough for the serializations the
connector performs (objects of string fields). -/
inductive Json
  | null
  | str (s : String)
  | obj (fields : List (String × Json))
deriving Repr

/-- The connection-level profile `EmptyConfig` from the crate root: a
struct with no fields. -/
structure EmptyConfig
deriving DecidableEq, Repr

/-- Modelled from the spec: `ConnectionSchema` lives in the external
`arroyo_rpc` crate (not under `src/`); per the spec it is the data-format
contract, optional at configuration time, whose `format` must be set
before compilation.  The format itself is kept abstract as a string. -/
structure ConnectionSchema where
  format : Option String
deriving DecidableEq, Repr

/-- Modelled from the spec: the compilation-error taxonomy
(`MissingSchema`, `MissingFormat`, `MissingOption(key)`).  In the code
these are `anyhow` errors: `MissingSchema` is
"no schema defined for WebSocket connection", `MissingFormat` is
"'format' must be set for WebSocket connection", and `MissingOption` is
raised by `pull_opt` for an absent required key. -/
inductive CompileError
  | MissingSchema
  | MissingFormat
  | MissingOption (key : String)
deriving DecidableEq, Repr

/-- `serde_json::to_value` on `EmptyConfig`: the empty object. -/
def EmptyConfig.toJson (_ : EmptyConfig) : Json := .obj []

/-- `serde_json::from_value` for `EmptyConfig`: any object deserializes to
the (unique) empty profile; anything else is rejected. -/
def EmptyConfig.fromJson : Json → Option EmptyConfig
  | .obj _ => some ⟨⟩
  | _ => none

/-- Modelled from the spec: the serde serialization of the generated
`WebsocketTable` (the generated code is produced by `import_types!` from
`connector-schemas/websocket/table.json`, which is not under `src/`).
Per the spec the table has a required `endpoint` string and an optional
`subscription_message` string; an absent option is omitted from the
object. -/
def WebsocketTable.toJson (t : WebsocketTable) : Json :=
  .obj (("endpoint", .str t.endpoint) ::
    match t.subscription_message with
    | some m => [("subscription_message", .str m.val)]
    | none => [])

/-- Modelled from the spec: the serde deserialization of the generated
`WebsocketTable` — `endpoint` is required and must be a string;
`subscription_message` is optional (absent or `null` gives `none`). -/
def WebsocketTable.fromJson (j : Json) : Option WebsocketTable :=
  match j with
  | .obj fs =>
    match fs.lookup "endpoint" with
    | some (.str e) =>
      match fs.lookup "subscription_message" with
      | some (.str m) => some ⟨e, some ⟨m⟩⟩
      | some .null => some ⟨e, none⟩
      | some _ => none
      | none => some ⟨e, none⟩
    | _ => none
  | _ => none

/-- The compiled, engine-facing artifact `OperatorConfig` from
`arroyo_rpc`, as constructed in `from_config`: serialized profile,
serialized table, no rate limit, the resolved format. -/
structure OperatorConfig where
  connection : Json
  table : Json
  rate_limit : Option Json
  format : Option String
deriving Repr

/-- Source/sink classification from `arroyo_rpc::types::ConnectionType`. -/
inductive ConnectionType
  | Source
  | Sink
deriving DecidableEq, Repr

/-- The durable `crate::Connection` record, with the fields `from_config`
fills in.  The Rust code stores `config` as its JSON string rendering; the
model keeps the structured `OperatorConfig` value. -/
structure Connection where
  id : Option Int
  name : String
  connection_type : ConnectionType
  schema : ConnectionSchema
  operator : String
  config : OperatorConfig
  description : String
deriving Repr

/-- `WebsocketConnector::from_config`: requires a schema (else
`MissingSchema`) with its format set (else `MissingFormat`); on success
builds the `OperatorConfig` and the `Connection` with the
`WebsocketSource<endpoint>` description. -/
def from_config (id : Option Int) (name : String) (config : EmptyConfig)
    (table : WebsocketTable) (schema : Option ConnectionSchema) :
    Except CompileError Connection :=
  let description := "WebsocketSource<" ++ table.endpoint ++ ">"
  match schema with
  | none => .error .MissingSchema
  | some s =>
    match s.format with
    | none => .error .MissingFormat
    | some fmt =>
      .ok
        { id := id
          name := name
          connection_type := .Source
          schema := s
          operator := "connectors::websocket::WebsocketSourceFunc"
          config :=
            { connection := EmptyConfig.toJson config
              table := table.toJson
              rate_limit := none
              format := some fmt }
          description := description }

/-- The raw options map (`HashMap<String, String>`), as an association
list with no duplicate keys assumed; `List.lookup` gives the map view. -/
def Opts := List (String × String)

/-- `HashMap::remove`: drop the binding of the key (every binding, on the
association-list view; a `HashMap` holds at most one). -/
def Opts.erase : Opts → String → Opts
  | [], _ => []
  | kv :: t, key => if kv.1 = key then Opts.erase t key else kv :: Opts.erase t key

/-- Look a key up in the options map. -/
def Opts.lookup (opts : Opts) (key : String) : Option String :=
  List.lookup key opts

/-- Modelled from the spec: `crate::pull_opt` is not under `src/`; per the
spec it extracts a required key from the untyped map, consuming (removing)
it, and an absent key triggers `MissingOption(key)`. -/
def pull_opt (name : String) (opts : Opts) : Except CompileError (String × Opts) :=
  match opts.lookup name with
  | some v => .ok (v, opts.erase name)
  | none => .error (.MissingOption name)

/-- `WebsocketConnector::from_options`: pull the required `endpoint`,
remove the optional `subscription_message`, and delegate to `from_config`
with the empty profile.  The returned map is the final state of the
mutable `opts` (mutated even when compilation then fails). -/
def from_options (name : String) (opts : Opts) (schema : Option ConnectionSchema) :
    Except CompileError Connection × Opts :=
  match pull_opt "endpoint" opts with
  | .error e => (.error e, opts)
  | .ok (endpoint, opts1) =>
    let sub := opts1.lookup "subscription_message"
    let opts2 := opts1.erase "subscription_message"
    (from_config none name ⟨⟩ ⟨endpoint, sub.map SubscriptionMessage.mk⟩ schema, opts2)

/-! ## Concrete inputs shared by witnesses -/

/-- A table with no subscription payload. -/
def tableNoSub : WebsocketTable := ⟨"ws://example.com", none⟩

/-- A table with a subscription payload. -/
def tableWithSub : WebsocketTable := ⟨"ws://example.com", some ⟨"subscribe"⟩⟩

/-- A run with an always-open sink where the timeout branch wins. -/
def envTimeout : TestEnv :=
  { connectResult := .ok ()
    subSendResult := .ok ()
    waitOutcome := .timeout
    sinkOpen := fun _ => true }

/-- A run with an always-open sink where a close frame arrives first. -/
def envFrameClose : TestEnv :=
  { connectResult := .ok ()
    subSendResult := .ok ()
    waitOutcome := .received (.frame .close)
    sinkOpen := fun _ => true }

/-- A run where the connect attempt fails with the sink open. -/
def envConnectFail : TestEnv :=
  { connectResult := .error "Io(Custom, ConnectionRefused)"
    subSendResult := .ok ()
    waitOutcome := .timeout
    sinkOpen := fun _ => true }

/-- A run where the observer dropped the sink before the first send. -/
def envSinkClosed : TestEnv :=
  { connectResult := .ok ()
    subSendResult := .ok ()
    waitOutcome := .timeout
    sinkOpen := fun _ => false }

/-- A concrete `Connection` as `from_config` builds it, for witnesses. -/
def connWitness : Connection :=
  { id := none
    name := "conn"
    connection_type := .Source
    schema := ⟨some "json"⟩
    operator := "connectors::websocket::WebsocketSourceFunc"
    config :=
      { connection := .obj []
        table := tableNoSub.toJson
        rate_limit := none
        format := some "json" }
    description := "WebsocketSource<ws://example.com>" }

/-! ## Helper lemmas -/

/-- With the sink open, a send delivers its event. -/
theorem sendStep_open {env : TestEnv} (h : sinkAlwaysOpen env)
    (error done : Bool) (message : String) (acc : List TestSourceMessage) :
    sendStep env error done message acc = some (acc ++ [⟨error, done, message⟩]) := by
  simp [sendStep, h acc.length]

/-- With the sink open, the wait phase completes and appends exactly
`waitEvents` of the race outcome. -/
theorem waitPhase_open {env : TestEnv} (h : sinkAlwaysOpen env)
    (acc : List TestSourceMessage) :
    waitPhase env acc = .completed (acc ++ waitEvents env.waitOutcome) := by
  rcases env with ⟨c, s, w, o⟩
  rcases w with r | _
  · rcases r with f | e | _ <;>
      simp [waitPhase, waitEvents, sendStep_open h]
  · simp [waitPhase, waitEvents, sendStep_open h]

/-- With the sink open and no subscription payload, the subscription phase
is skipped entirely. -/
theorem subscribePhase_none {env : TestEnv} {table : WebsocketTable}
    (hs : table.subscription_message = none) (acc : List TestSourceMessage) :
    subscribePhase table env acc = waitPhase env acc := by
  simp [subscribePhase, hs]

/-- With the sink open, a present payload and a successful subscription
send, the subscription phase emits the confirmation event and hands the
extended trace to the wait phase. -/
theorem subscribePhase_some {env : TestEnv} {table : WebsocketTable}
    (h : sinkAlwaysOpen env) {m : SubscriptionMessage}
    (hs : table.subscription_message = some m) (hsend : env.subSendResult = .ok ())
    (acc : List TestSourceMessage) :
    subscribePhase table env acc
      = waitPhase env (acc ++ [⟨false, false, "Sent subscription message"⟩]) := by
  simp [subscribePhase, hs, hsend, sendStep_open h]

/-- With the sink open and a successful connect, the whole run completes
with the connected event, the optional subscription confirmation, and the
wait-phase events. -/
theorem test_open_ok {env : TestEnv} {table : WebsocketTable}
    (h : sinkAlwaysOpen env) (hc : env.connectResult = .ok ())
    (hsub : table.subscription_message = none ∨ env.subSendResult = .ok ()) :
    test table env = .completed
      ((⟨false, false, "Successfully connected to websocket server"⟩ ::
        (match table.subscription_message with
         | none => []
         | some _ => [⟨false, false, "Sent subscription message"⟩])) ++
        waitEvents env.waitOutcome) := by
  rcases hm : table.subscription_message with _ | m
  · simp [test, hc, sendStep_open h, subscribePhase_none hm, waitPhase_open h]
  · rcases hsub with hn | hsend
    · rw [hm] at hn; exact absurd hn (by simp)
    · simp [test, hc, sendStep_open h, subscribePhase_some h hm hsend,
        waitPhase_open h]

/-- Any trace ending in the wait phase has the terminal shape: everything
before the last event is non-terminal and the last event has `done`. -/
theorem waitEvents_shape (w : WaitOutcome) (pre : List TestSourceMessage)
    (hpre : ∀ x ∈ pre, x.done = false) :
    ∃ front lastE, pre ++ waitEvents w = front ++ [lastE]
      ∧ lastE.done = true ∧ ∀ x ∈ front, x.done = false := by
  have hrecv : ∀ x ∈ pre ++ [(⟨false, false, "Received message from websocket"⟩ :
      TestSourceMessage)], x.done = false := by
    intro x hx
    rcases List.mem_append.mp hx with h1 | h1
    · exact hpre x h1
    · simp at h1; subst h1; rfl
  rcases w with r | _
  · rcases r with f | e | _
    · exact ⟨pre ++ [⟨false, false, "Received message from websocket"⟩],
        ⟨false, true, "Successfully validated websocket connection"⟩,
        by simp [waitEvents], rfl, hrecv⟩
    · exact ⟨pre, ⟨true, true, "Received error from websocket: " ++ e⟩,
        by simp [waitEvents], rfl, hpre⟩
    · exact ⟨pre, ⟨true, true, "Websocket disconnected before sending message"⟩,
        by simp [waitEvents], rfl, hpre⟩
  · exact ⟨pre, ⟨true, true, "Did not receive any messages after 30 seconds"⟩,
      by simp [waitEvents], rfl, hpre⟩

/-! ## Claims -/

/-- C1, as stated, fails on the code: if the observer has dropped the sink
before the first send, the `unwrap` in the `send` closure panics the task
before anything is delivered, so the emitted event sequence of this run is
empty — not non-empty with a final `done` event.  Concretely: connect
fails, and the sink is closed for every send. -/
theorem C1_counterexample :
    (test tableNoSub
      { connectResult := .error "Io(Custom, ConnectionRefused)"
        subSendResult := .ok ()
        waitOutcome := .timeout
        sinkOpen := fun _ => false }).events = [] := rfl

/-- C1 (amended): for every run in which every send into the event sink
succeeds (the observer stays connected), the emitted event sequence is
finite and non-empty, exactly one emitted event has `done = true`, that
event is the last one emitted, and no event is emitted after it. -/
theorem C1_event_invariant (table : WebsocketTable) (env : TestEnv)
    (h : sinkAlwaysOpen env) :
    ∃ front lastE, (test table env).events = front ++ [lastE]
      ∧ lastE.done = true ∧ ∀ x ∈ front, x.done = false := by
  rcases hc : env.connectResult with e | u
  · refine ⟨[], ⟨true, true, "Failed to connect to websocket server: " ++ e⟩, ?_, rfl, by simp⟩
    simp [test, hc, sendStep_open h, SessionResult.events]
  · cases u
    rcases hm : table.subscription_message with _ | m
    · have ht := test_open_ok h hc (Or.inl hm)
      simp only [hm, List.nil_append] at ht
      have hshape := waitEvents_shape env.waitOutcome
        [⟨false, false, "Successfully connected to websocket server"⟩] (by decide)
      rcases hshape with ⟨front, lastE, heq, hdone, hfront⟩
      refine ⟨front, lastE, ?_, hdone, hfront⟩
      rw [ht, SessionResult.events]
      simpa using heq
    · rcases hsend : env.subSendResult with e | u'
      · refine ⟨[⟨false, false, "Successfully connected to websocket server"⟩],
          ⟨true, true, "Failed to send subscription message: " ++ e⟩, ?_, rfl, by decide⟩
        simp [test, hc, sendStep_open h, subscribePhase, hm, hsend, SessionResult.events]
      · cases u'
        have ht := @test_open_ok env table h hc (Or.inr hsend)
        simp only [hm] at ht
        have hshape := waitEvents_shape env.waitOutcome
          [⟨false, false, "Successfully connected to websocket server"⟩,
           ⟨false, false, "Sent subscription message"⟩] (by decide)
        rcases hshape with ⟨front, lastE, heq, hdone, hfront⟩
        refine ⟨front, lastE, ?_, hdone, hfront⟩
        rw [ht, SessionResult.events]
        simpa using heq

/-- Witness for C1: the amended invariant at a concrete run (open sink,
successful connect, timeout). -/
theorem C1_event_invariant_witness :
    ∃ front lastE, (test tableNoSub envTimeout).events = front ++ [lastE]
      ∧ lastE.done = true ∧ ∀ x ∈ front, x.done = false :=
  C1_event_invariant tableNoSub envTimeout (fun _ => rfl)

/-- C2: the code contradicts the claim.  When a send into the sink fails
because the observer has disconnected, `tx.send(..).await.unwrap()` panics
the spawned task instead of silently stopping: here connect succeeds but
the sink is already closed, and the run ends in a panic with no events
delivered. -/
theorem C2_send_failure_panics :
    test tableNoSub envSinkClosed = .panicked [] := rfl

/-- C3: if the initial connect attempt fails (with the sink accepting the
send), the event sequence is exactly one event with `error = true`,
`done = true`, and a message beginning "Failed to connect" that carries
the failure detail. -/
theorem C3_connect_failure_single_event (table : WebsocketTable) (env : TestEnv)
    (e : String) (hc : env.connectResult = .error e) (h0 : env.sinkOpen 0 = true) :
    test table env
      = .completed [⟨true, true, "Failed to connect to websocket server: " ++ e⟩]
    ∧ ∃ rest, "Failed to connect to websocket server: " ++ e
      = "Failed to connect" ++ rest := by
  constructor
  · simp [test, hc, sendStep, h0]
  · have hlit : "Failed to connect" ++ " to websocket server: "
        = "Failed to connect to websocket server: " := by decide
    refine ⟨" to websocket server: " ++ e, ?_⟩
    rw [← String.append_assoc, hlit]

/-- Witness for C3: a concrete failing connect delivers the single
terminal event. -/
theorem C3_connect_failure_single_event_witness :
    test tableNoSub envConnectFail
      = .completed [⟨true, true,
          "Failed to connect to websocket server: Io(Custom, ConnectionRefused)"⟩]
    ∧ ∃ rest, "Failed to connect to websocket server: Io(Custom, ConnectionRefused)"
      = "Failed to connect" ++ rest :=
  C3_connect_failure_single_event tableNoSub envConnectFail
    "Io(Custom, ConnectionRefused)" rfl rfl

/-- C4: `from_config` without a schema fails with `MissingSchema`, and
with a schema whose format is unset fails with `MissingFormat`; in both
cases only the error is produced, never a `Connection`. -/
theorem C4_missing_schema_missing_format (id : Option Int) (name : String)
    (config : EmptyConfig) (table : WebsocketTable) :
    from_config id name config table none = .error .MissingSchema
    ∧ ∀ s : ConnectionSchema, s.format = none →
        from_config id name config table (some s) = .error .MissingFormat := by
  constructor
  · rfl
  · intro s hf
    simp [from_config, hf]

/-- Witness for C4 at concrete inputs. -/
theorem C4_missing_schema_missing_format_witness :
    from_config none "conn" ⟨⟩ tableNoSub none = .error .MissingSchema
    ∧ from_config none "conn" ⟨⟩ tableNoSub (some ⟨none⟩) = .error .MissingFormat :=
  ⟨(C4_missing_schema_missing_format none "conn" ⟨⟩ tableNoSub).1,
   (C4_missing_schema_missing_format none "conn" ⟨⟩ tableNoSub).2 ⟨none⟩ rfl⟩

/-- Erasing a key removes its binding. -/
theorem lookup_erase (opts : List (String × String)) (k : String) :
    Opts.lookup (Opts.erase opts k) k = none := by
  induction opts with
  | nil => rfl
  | cons kv t ih =>
    rcases kv with ⟨k1, v1⟩
    by_cases hk : k1 = k
    · have he : Opts.erase ((k1, v1) :: t) k = Opts.erase t k := by
        simp [Opts.erase, hk]
      rw [he]
      exact ih
    · have he : Opts.erase ((k1, v1) :: t) k = (k1, v1) :: Opts.erase t k := by
        simp [Opts.erase, hk]
      have hb : (k == k1) = false := by
        rw [beq_eq_false_iff_ne]
        exact fun hkk => hk hkk.symm
      rw [he]
      show List.lookup k ((k1, v1) :: Opts.erase t k) = none
      simp only [List.lookup, hb]
      exact ih

/-- Erasing a key leaves every other key's binding unchanged. -/
theorem lookup_erase_ne (opts : List (String × String)) {k k' : String} (h : k' ≠ k) :
    Opts.lookup (Opts.erase opts k) k' = Opts.lookup opts k' := by
  induction opts with
  | nil => rfl
  | cons kv t ih =>
    rcases kv with ⟨k1, v1⟩
    by_cases hk : k1 = k
    · have he : Opts.erase ((k1, v1) :: t) k = Opts.erase t k := by
        simp [Opts.erase, hk]
      have hb : (k' == k1) = false := by
        rw [beq_eq_false_iff_ne, hk]
        exact h
      rw [he, ih]
      show Opts.lookup t k' = List.lookup k' ((k1, v1) :: t)
      simp only [List.lookup, hb]
      rfl
    · have he : Opts.erase ((k1, v1) :: t) k = (k1, v1) :: Opts.erase t k := by
        simp [Opts.erase, hk]
      rw [he]
      show List.lookup k' ((k1, v1) :: Opts.erase t k) = List.lookup k' ((k1, v1) :: t)
      cases hbe : (k' == k1) with
      | true => simp only [List.lookup, hbe]
      | false =>
        simp only [List.lookup, hbe]
        exact ih

/-- The websocket round-trip: deserializing a serialized table restores
the table. -/
theorem websocketTable_round_trip (t : WebsocketTable) :
    WebsocketTable.fromJson t.toJson = some t := by
  rcases t with ⟨e, _ | m⟩ <;> rfl

/-- The profile round-trip: deserializing the serialized empty profile
restores it. -/
theorem emptyConfig_round_trip (c : EmptyConfig) :
    EmptyConfig.fromJson c.toJson = some c := rfl

/-- No wait-phase event carries the subscription-confirmation message. -/
theorem waitEvents_message_ne_sub (w : WaitOutcome) :
    ∀ ev ∈ waitEvents w, ev.message ≠ "Sent subscription message" := by
  intro ev hev
  rcases w with r | _
  · rcases r with f | e | _
    · simp [waitEvents] at hev
      rcases hev with h1 | h1 <;> subst h1 <;> decide
    · simp [waitEvents] at hev
      subst hev
      intro hmsg
      have h1 := congrArg String.length hmsg
      rw [String.length_append] at h1
      have h2 : "Received error from websocket: ".length = 31 := by decide
      have h3 : "Sent subscription message".length = 25 := by decide
      rw [h2, h3] at h1
      omega
    · simp [waitEvents] at hev; subst hev; decide
  · simp [waitEvents] at hev; subst hev; decide

/-- C5: with no `endpoint` key, `from_options` fails with
`MissingOption("endpoint")` (the map untouched, no `Connection`); with an
`endpoint` present, the final map has exactly the read keys `endpoint` and
`subscription_message` removed and every other entry unchanged. -/
theorem C5_from_options_consumes_keys (name : String) (opts : Opts)
    (schema : Option ConnectionSchema) :
    (opts.lookup "endpoint" = none →
      from_options name opts schema = (.error (.MissingOption "endpoint"), opts))
    ∧ (∀ v, opts.lookup "endpoint" = some v →
        (from_options name opts schema).2.lookup "endpoint" = none
        ∧ (from_options name opts schema).2.lookup "subscription_message" = none
        ∧ ∀ k, k ≠ "endpoint" → k ≠ "subscription_message" →
            (from_options name opts schema).2.lookup k = opts.lookup k) := by
  constructor
  · intro hnone
    simp [from_options, pull_opt, hnone]
  · intro v hv
    have h2 : (from_options name opts schema).2
        = Opts.erase (Opts.erase opts "endpoint") "subscription_message" := by
      simp [from_options, pull_opt, hv]
    rw [h2]
    refine ⟨?_, ?_, ?_⟩
    · rw [lookup_erase_ne _ (by decide)]
      exact lookup_erase _ _
    · exact lookup_erase _ _
    · intro k hk1 hk2
      rw [lookup_erase_ne _ hk2, lookup_erase_ne _ hk1]

/-- Witness for C5: both branches at concrete maps — a map without
`endpoint` fails untouched; a map with `endpoint`, `subscription_message`
and an unrelated key keeps only the unrelated key reachable. -/
theorem C5_from_options_consumes_keys_witness :
    from_options "conn" [("subscription_message", "hi")] none
      = (.error (.MissingOption "endpoint"), [("subscription_message", "hi")])
    ∧ (from_options "conn"
        [("endpoint", "ws://host/feed"), ("subscription_message", "hi"), ("other", "x")]
        none).2.lookup "endpoint" = none
    ∧ (from_options "conn"
        [("endpoint", "ws://host/feed"), ("subscription_message", "hi"), ("other", "x")]
        none).2.lookup "other"
      = Opts.lookup [("endpoint", "ws://host/feed"), ("subscription_message", "hi"),
          ("other", "x")] "other" :=
  ⟨(C5_from_options_consumes_keys "conn" [("subscription_message", "hi")] none).1 rfl,
   ((C5_from_options_consumes_keys "conn"
      [("endpoint", "ws://host/feed"), ("subscription_message", "hi"), ("other", "x")]
      none).2 "ws://host/feed" rfl).1,
   (((C5_from_options_consumes_keys "conn"
      [("endpoint", "ws://host/feed"), ("subscription_message", "hi"), ("other", "x")]
      none).2 "ws://host/feed" rfl).2.2 "other" (by decide) (by decide))⟩

/-- C6: a `Connection` built by `from_config` stores in its
`OperatorConfig` a serialized table and profile that deserialize back to
the original values. -/
theorem C6_round_trip (id : Option Int) (name : String) (cfg : EmptyConfig)
    (table : WebsocketTable) (schema : Option ConnectionSchema) (c : Connection)
    (hok : from_config id name cfg table schema = .ok c) :
    WebsocketTable.fromJson c.config.table = some table
    ∧ EmptyConfig.fromJson c.config.connection = some cfg := by
  rcases schema with _ | s
  · simp [from_config] at hok
  · rcases hf : s.format with _ | fmt
    · simp [from_config, hf] at hok
    · simp only [from_config, hf] at hok
      obtain rfl := Except.ok.inj hok
      exact ⟨websocketTable_round_trip table, emptyConfig_round_trip cfg⟩

/-- Witness for C6: the round trip at a concrete compiled connection. -/
theorem C6_round_trip_witness :
    WebsocketTable.fromJson connWitness.config.table = some tableNoSub
    ∧ EmptyConfig.fromJson connWitness.config.connection = some ⟨⟩ :=
  C6_round_trip none "conn" ⟨⟩ tableNoSub (some ⟨some "json"⟩) connWitness rfl

/-- C7: when the 30-second timer wins the race (sink open, connect
successful, subscription step not failing), the session emits exactly one
timeout terminal event, as its last event, and nothing after it. -/
theorem C7_timeout_terminal (table : WebsocketTable) (env : TestEnv)
    (h : sinkAlwaysOpen env) (hc : env.connectResult = .ok ())
    (hw : env.waitOutcome = .timeout)
    (hsub : table.subscription_message = none ∨ env.subSendResult = .ok ()) :
    ∃ front, (test table env).events
        = front ++ [⟨true, true, "Did not receive any messages after 30 seconds"⟩]
      ∧ (⟨true, true, "Did not receive any messages after 30 seconds"⟩ :
          TestSourceMessage) ∉ front := by
  have ht := @test_open_ok env table h hc hsub
  rw [hw] at ht
  rcases hm : table.subscription_message with _ | m
  · simp only [hm] at ht
    refine ⟨[⟨false, false, "Successfully connected to websocket server"⟩], ?_, by decide⟩
    rw [ht]
    rfl
  · simp only [hm] at ht
    refine ⟨[⟨false, false, "Successfully connected to websocket server"⟩,
      ⟨false, false, "Sent subscription message"⟩], ?_, by decide⟩
    rw [ht]
    rfl

/-- Witness for C7: the timeout run with no subscription payload. -/
theorem C7_timeout_terminal_witness :
    ∃ front, (test tableNoSub envTimeout).events
        = front ++ [⟨true, true, "Did not receive any messages after 30 seconds"⟩]
      ∧ (⟨true, true, "Did not receive any messages after 30 seconds"⟩ :
          TestSourceMessage) ∉ front :=
  C7_timeout_terminal tableNoSub envTimeout (fun _ => rfl) rfl rfl (Or.inl rfl)

/-- C8: the subscribing step happens exactly when a payload is configured.
With a payload (and its send succeeding), the confirmation event sits
between the connected event and all wait-phase events; with none, the
trace goes straight from the connected event to the wait-phase events and
contains no subscription event. -/
theorem C8_subscription_ordering (table : WebsocketTable) (env : TestEnv)
    (h : sinkAlwaysOpen env) (hc : env.connectResult = .ok ()) :
    (∀ m, table.subscription_message = some m → env.subSendResult = .ok () →
      (test table env).events
        = ⟨false, false, "Successfully connected to websocket server"⟩ ::
          ⟨false, false, "Sent subscription message"⟩ :: waitEvents env.waitOutcome)
    ∧ (table.subscription_message = none →
      (test table env).events
        = ⟨false, false, "Successfully connected to websocket server"⟩ ::
          waitEvents env.waitOutcome
      ∧ ∀ ev ∈ (test table env).events, ev.message ≠ "Sent subscription message") := by
  constructor
  · intro m hm hsend
    have ht := @test_open_ok env table h hc (Or.inr hsend)
    simp only [hm] at ht
    rw [ht]
    rfl
  · intro hm
    have ht := @test_open_ok env table h hc (Or.inl hm)
    simp only [hm] at ht
    have hev : (test table env).events
        = ⟨false, false, "Successfully connected to websocket server"⟩ ::
          waitEvents env.waitOutcome := by
      rw [ht]
      rfl
    refine ⟨hev, ?_⟩
    intro ev hmem
    rw [hev] at hmem
    rcases List.mem_cons.mp hmem with h1 | h1
    · subst h1
      decide
    · exact waitEvents_message_ne_sub env.waitOutcome ev h1

/-- Witness for C8: with a payload the confirmation precedes the timeout
event; without one the trace has no subscription event. -/
theorem C8_subscription_ordering_witness :
    (test tableWithSub envTimeout).events
      = ⟨false, false, "Successfully connected to websocket server"⟩ ::
        ⟨false, false, "Sent subscription message"⟩ :: waitEvents envTimeout.waitOutcome
    ∧ ∀ ev ∈ (test tableNoSub envTimeout).events,
        ev.message ≠ "Sent subscription message" :=
  ⟨(C8_subscription_ordering tableWithSub envTimeout (fun _ => rfl) rfl).1
      ⟨"subscribe"⟩ rfl rfl,
   ((C8_subscription_ordering tableNoSub envTimeout (fun _ => rfl) rfl).2 rfl).2⟩

/-- C9: an options map holding `endpoint = "ws://host/feed"` together with
a schema whose format is set compiles to a `Connection` classified as a
`Source` and described as `WebsocketSource<ws://host/feed>`. -/
theorem C9_source_description (name : String) (opts : Opts)
    (schema : ConnectionSchema) (fmt : String)
    (he : opts.lookup "endpoint" = some "ws://host/feed")
    (hf : schema.format = some fmt) :
    ∃ c, (from_options name opts (some schema)).1 = .ok c
      ∧ c.connection_type = .Source
      ∧ c.description = "WebsocketSource<ws://host/feed>" := by
  simp only [from_options, pull_opt, he, from_config, hf]
  exact ⟨_, rfl, rfl, rfl⟩

/-- Witness for C9 at the concrete scenario map and schema. -/
theorem C9_source_description_witness :
    ∃ c, (from_options "conn" [("endpoint", "ws://host/feed")]
        (some ⟨some "json"⟩)).1 = .ok c
      ∧ c.connection_type = .Source
      ∧ c.description = "WebsocketSource<ws://host/feed>" :=
  C9_source_description "conn" [("endpoint", "ws://host/feed")] ⟨some "json"⟩
    "json" rfl rfl

/-- C10: in the wait, any frame delivered without transport error — a
close or control frame included — counts as a received message and the
session validates (received-message then validated events, ending the
trace); only `None`, the stream ending with no frame, is the disconnect
failure. -/
theorem C10_any_frame_validates (table : WebsocketTable) (env : TestEnv)
    (h : sinkAlwaysOpen env) (hc : env.connectResult = .ok ())
    (hsub : table.subscription_message = none ∨ env.subSendResult = .ok ()) :
    (∀ f : Frame, env.waitOutcome = .received (.frame f) →
      ∃ front, (test table env).events
        = front ++ [⟨false, false, "Received message from websocket"⟩,
            ⟨false, true, "Successfully validated websocket connection"⟩])
    ∧ (env.waitOutcome = .received .disconnected →
      ∃ front, (test table env).events
        = front ++ [⟨true, true, "Websocket disconnected before sending message"⟩]) := by
  have ht := @test_open_ok env table h hc hsub
  constructor
  · intro f hw
    rw [hw] at ht
    refine ⟨⟨false, false, "Successfully connected to websocket server"⟩ ::
      (match table.subscription_message with
       | none => []
       | some _ => [⟨false, false, "Sent subscription message"⟩]), ?_⟩
    rw [ht]
    rfl
  · intro hw
    rw [hw] at ht
    refine ⟨⟨false, false, "Successfully connected to websocket server"⟩ ::
      (match table.subscription_message with
       | none => []
       | some _ => [⟨false, false, "Sent subscription message"⟩]), ?_⟩
    rw [ht]
    rfl

/-- Witness for C10: a close frame — not a data frame — still validates
the connection. -/
theorem C10_any_frame_validates_witness :
    ∃ front, (test tableNoSub envFrameClose).events
      = front ++ [⟨false, false, "Received message from websocket"⟩,
          ⟨false, true, "Successfully validated websocket connection"⟩] :=
  (C10_any_frame_validates tableNoSub envFrameClose (fun _ => rfl) rfl
    (Or.inl rfl)).1 .close rfl

end Websocket
